import Mathlib

/-!
Shallow embedding of `switch.py`, the single source file of the pizeroIOT
repository: a Tkinter GUI that discovers and toggles TP-Link Kasa devices.

Modelling choices:
- A device attribute read through Python's attribute protocol is either
  absent (access raises `AttributeError`, which `hasattr` swallows),
  present with a value, or raises a non-`AttributeError` exception
  (which `hasattr` propagates).  This is the `Attr` / `AttrS` type below.
- The credential file is a list of lines, plus a flag recording whether an
  exception interrupted the read after those lines (the `try` in
  `_load_credentials_from_env` wraps the whole read loop, so lines
  processed before a failure keep their effect).
- The Tk treeview is a pair of row lists: `attached` (what
  `get_children` returns, in display order) and `detached` (rows removed
  by `detach`, which still exist but are invisible and are not returned
  by `get_children`).  `reattach`/`move` to the end of the root moves an
  attached row to the end; `detach` moves it to the detached pool.
- Network outcomes (a control call succeeding or timing out, discovery
  returning or raising) are passed in as explicit parameters, since the
  code isolates every such call behind `asyncio.wait_for` plus a broad
  `except`.
-/

namespace Switch

/-- Python `str.strip(cs)`: drop characters satisfying `p` from both ends. -/
def stripChars (p : Char → Bool) (s : String) : String :=
  String.mk (((s.data.dropWhile p).reverse.dropWhile p).reverse)

/-- Python `str.strip()` with no argument (whitespace on both ends). -/
def pyStrip (s : String) : String :=
  stripChars Char.isWhitespace s

/-- The double-quote character `"`. -/
def dquote : Char := Char.ofNat 34

/-- The single-quote character. -/
def squote : Char := Char.ofNat 39

/-- `value.strip().strip(double-quote).strip(single-quote)` from
`switch.py` line 121. -/
def stripValue (s : String) : String :=
  stripChars (fun c => c == squote) (stripChars (fun c => c == dquote) (pyStrip s))

/-- Python `s.startswith(pre)`. -/
def strStartsWith (s pre : String) : Bool :=
  pre.data.isPrefixOf s.data

/-- Python `s.lower()` (ASCII case folding, identity elsewhere). -/
def strToLower (s : String) : String :=
  String.mk (s.data.map Char.toLower)

/-- Split a character list at the first occurrence of `c`
(Python `s.split(c, 1)` when `c` occurs; `none` when it does not). -/
def splitFirst (c : Char) : List Char → Option (List Char × List Char)
  | [] => none
  | x :: xs =>
    if x = c then some ([], xs)
    else
      match splitFirst c xs with
      | none => none
      | some (k, v) => some (x :: k, v)

/-- `line.split(char-equal, 1)` on strings, `none` when the line has no
equals sign (the `if in line` guard at line 118). -/
def splitFirstEq (s : String) : Option (String × String) :=
  match splitFirst (Char.ofNat 61) s.data with
  | none => none
  | some (k, v) => some (String.mk k, String.mk v)

/-- The credential pair built by `_load_credentials_from_env`. -/
structure Credentials where
  username : String
  password : String
deriving DecidableEq

/-- One iteration of the line loop of `_load_credentials_from_env`
(lines 115-126): strip the line, skip blank lines and comment lines,
split on the first equals sign, strip the key, strip whitespace and
then surrounding quotes from the value, and record the value when the
key is one of the two recognized names. -/
def processLine (cred : Credentials) (rawLine : String) : Credentials :=
  let line := pyStrip rawLine
  if line = "" then cred
  else if strStartsWith line "#" then cred
  else
    match splitFirstEq line with
    | none => cred
    | some (k, v) =>
      let key := pyStrip k
      let value := stripValue v
      if key = "KASA_USERNAME" then { cred with username := value }
      else if key = "KASA_PASSWORD" then { cred with password := value }
      else cred

/-- A successfully opened credential file: the lines the `for line in f`
loop delivered, and whether an exception cut the read short after them
(the `except` at line 128 only prints, keeping the updates already
made to the locally mutated dictionary). -/
structure ReadFile where
  lines : List String
  readFailed : Bool
deriving DecidableEq

/-- `_load_credentials_from_env` (lines 107-133).  `none` models an
absent file (`os.path.exists` false) or `open` itself raising: no line
is processed and the initial empty pair is returned.  `some f` models a
file whose lines were delivered by the iterator; when `f.readFailed` is
true an exception stopped the loop after those lines, and the partially
filled dictionary is still returned. -/
def _load_credentials_from_env : Option ReadFile → Credentials
  | none => ⟨"", ""⟩
  | some f => f.lines.foldl processLine ⟨"", ""⟩

/-- A Bool-valued Python attribute as seen through `hasattr`/access:
absent (access raises `AttributeError`), a value, or an access that
raises a non-`AttributeError` exception. -/
inductive Attr where
  | absent : Attr
  | val : Bool → Attr
  | raisesOther : Attr
deriving DecidableEq, Fintype

/-- A String-valued Python attribute, same three cases as `Attr`. -/
inductive AttrS where
  | absent : AttrS
  | val : String → AttrS
  | raisesOther : AttrS
deriving DecidableEq

/-- The attribute surface of a device that `update_statistics`
(lines 289-329) reads. -/
structure StatDevice where
  is_available : Attr
  available : Attr
  is_on : Attr
deriving DecidableEq, Fintype

/-- The tail of the per-device `try` body of `update_statistics` after
the online/offline increments `onl`/`off` have been chosen (lines
314-320): `hasattr(device, is-on-name)` propagates a non-AttributeError
exception from the property, which the `except` turns into one more
`offline` increment on top of the increments already made. -/
def afterAvail (d : StatDevice) (onl off : Nat) : Nat × Nat × Nat :=
  match d.is_on with
  | Attr.raisesOther => (onl, off + 1, 0)
  | Attr.val b => (onl, off, if b then 1 else 0)
  | Attr.absent => (onl, off, 0)

/-- The per-device body of the statistics loop (lines 300-320),
returning the increments this device contributes to
(online, offline, active).  Availability defaults to true when neither
availability attribute exists; a non-AttributeError exception anywhere
falls to the `except` branch, which adds one to `offline` while keeping
increments already performed. -/
def deviceCounts (d : StatDevice) : Nat × Nat × Nat :=
  match d.is_available with
  | Attr.raisesOther => (0, 1, 0)
  | Attr.val b => if b then afterAvail d 1 0 else afterAvail d 0 1
  | Attr.absent =>
    match d.available with
    | Attr.raisesOther => (0, 1, 0)
    | Attr.val b => if b then afterAvail d 1 0 else afterAvail d 0 1
    | Attr.absent => afterAvail d 1 0

/-- Sum of the per-device increments over the device list. -/
def sumCounts : List StatDevice → Nat × Nat × Nat
  | [] => (0, 0, 0)
  | d :: ds =>
    let c := deviceCounts d
    let r := sumCounts ds
    (c.1 + r.1, c.2.1 + r.2.1, c.2.2 + r.2.2)

/-- The four counters shown by the statistics bar. -/
structure Stats where
  total : Nat
  online : Nat
  offline : Nat
  active : Nat
deriving DecidableEq

/-- `update_statistics` (lines 289-329): total is the mapping size,
online/offline/active are the summed increments, and when both online
and offline ended at zero with a nonempty mapping, online is forced to
total (lines 322-324). -/
def update_statistics (devices : List StatDevice) : Stats :=
  let total := devices.length
  let c := sumCounts devices
  let online := if c.1 = 0 ∧ c.2.1 = 0 ∧ 0 < total then total else c.1
  { total := total, online := online, offline := c.2.1, active := c.2.2 }

/-- The effective availability the loop computes for a device whose
attribute reads do not raise: `is_available` when present, else
`available` when present, else the default `true`. -/
def effAvail (d : StatDevice) : Bool :=
  match d.is_available with
  | Attr.val b => b
  | Attr.raisesOther => true
  | Attr.absent =>
    match d.available with
    | Attr.val b => b
    | _ => true

/-- None of the three attribute reads raises a non-AttributeError
exception. -/
abbrev noRaise (d : StatDevice) : Prop :=
  d.is_available ≠ Attr.raisesOther ∧ d.available ≠ Attr.raisesOther
    ∧ d.is_on ≠ Attr.raisesOther

/-- The device carries no reachability attribute at all. -/
abbrev noSignal (d : StatDevice) : Prop :=
  d.is_available = Attr.absent ∧ d.available = Attr.absent

/-- The three-device mapping of testable property 2: on-flags
true / false / unknown, no reachability attribute anywhere. -/
def exampleABC : List StatDevice :=
  [⟨Attr.absent, Attr.absent, Attr.val true⟩,
   ⟨Attr.absent, Attr.absent, Attr.val false⟩,
   ⟨Attr.absent, Attr.absent, Attr.absent⟩]

/-- The success/failure tally loop of `_turn_all_devices`
(lines 579-587) over the per-device call outcomes. -/
def countResults : List Bool → Nat × Nat
  | [] => (0, 0)
  | ok :: rest =>
    let r := countResults rest
    if ok then (r.1 + 1, r.2) else (r.1, r.2 + 1)

/-- What one batch all-on / all-off pass produces. -/
structure BatchResult where
  successful : Nat
  failed : Nat
  pauseSeconds : Nat
  refreshed : List String
  redrawn : Bool
  status : String
deriving DecidableEq

/-- `_turn_all_devices` (lines 562-610).  Each device comes with the
outcome of its own time-bounded control call (`asyncio.wait_for`
timeout 10); failures are tallied, never propagated.  After the tally,
`asyncio.sleep(1)` pauses, a second round of `update` calls is issued
for every device (gathered with exceptions returned, lines 590-597),
`update_device_list` redraws, and the status text reports the two
aggregate counts (lines 601-604). -/
def _turn_all_devices (turn_on : Bool) (devices : List (String × Bool)) : BatchResult :=
  let action := if turn_on then "on" else "off"
  let c := countResults (devices.map (fun p => p.2))
  { successful := c.1
    failed := c.2
    pauseSeconds := 1
    refreshed := devices.map (fun p => p.1)
    redrawn := true
    status :=
      if c.2 = 0 then "All " ++ toString c.1 ++ " devices turned " ++ action
      else toString c.1 ++ " devices turned " ++ action ++ ", " ++ toString c.2 ++ " failed" }

/-- `needle.isPrefixOf`-based infix test on character lists, the
semantics of Python substring containment. -/
def charListInfix (needle : List Char) : List Char → Bool
  | [] => needle.isEmpty
  | c :: rest => needle.isPrefixOf (c :: rest) || charListInfix needle rest

/-- Python `needle in haystack` on strings. -/
def strContains (haystack needle : String) : Bool :=
  charListInfix needle.data haystack.data

/-- One row of the treeview: its item id (the device address), the
three displayed cell values, and its color tag. -/
structure Row where
  iid : String
  values : List String
  tag : String
deriving DecidableEq

/-- The treeview: `attached` is what `get_children` returns, in display
order; `detached` holds rows removed by `detach`, which still exist but
are not returned by `get_children`. -/
structure TreeState where
  attached : List Row
  detached : List Row
deriving DecidableEq

/-- The space-joined lowercased cell values of a row
(line 283 of `on_search_changed`). -/
def joinLower (values : List String) : String :=
  String.intercalate " " (values.map strToLower)

/-- Whether the row survives a search for `term` (line 284). -/
def rowMatches (term : String) (r : Row) : Bool :=
  strContains (joinLower r.values) term

/-- Remove the row with the given item id from a row list. -/
def detachRow (l : List Row) (iid : String) : List Row :=
  l.filter (fun r => r.iid != iid)

/-- The body of the item loop of `on_search_changed` (lines 280-287):
a row with no values is skipped; a matching row is reattached at the
end of the root; a non-matching row is detached. -/
def searchStep (term : String) (st : TreeState) (r : Row) : TreeState :=
  if r.values.isEmpty then st
  else if rowMatches term r then
    { st with attached := detachRow st.attached r.iid ++ [r] }
  else
    { attached := detachRow st.attached r.iid, detached := st.detached ++ [r] }

/-- `on_search_changed` (lines 270-287): lowercase the search text,
treat the placeholder text as the empty query, then iterate over the
snapshot of `get_children()` — the rows attached when the handler
fired; detached rows are not visited. -/
def on_search_changed (searchVar : String) (st : TreeState) : TreeState :=
  let term0 := strToLower searchVar
  let term := if term0 = "search devices..." then "" else term0
  st.attached.foldl (searchStep term) st

/-- The attribute surface of a device that rendering reads. -/
structure RenderDevice where
  aliasAttr : AttrS
  is_on : Attr
  device_type : AttrS
deriving DecidableEq

/-- `get_status_display` (lines 345-353): its own `try` catches every
exception, so an absent or raising on-state yields the Unknown label. -/
def get_status_display (d : RenderDevice) : String :=
  match d.is_on with
  | Attr.val true => "🟢 ON"
  | Attr.val false => "⚫ OFF"
  | Attr.absent => "⚪ Unknown"
  | Attr.raisesOther => "⚪ Unknown"

/-- The icon chosen from a present device-type string
(`get_device_icon` lines 334-343). -/
def iconFor (t : String) : String :=
  let ty := strToLower t
  if strContains ty "plug" then "🔌"
  else if strContains ty "bulb" || strContains ty "light" then "💡"
  else if strContains ty "switch" then "⚡"
  else if strContains ty "strip" then "🔗"
  else "📱"

/-- `get_device_icon` (lines 331-343): `hasattr` propagates a
non-AttributeError exception from the property to the caller. -/
def get_device_icon (d : RenderDevice) : Except Unit String :=
  match d.device_type with
  | AttrS.raisesOther => Except.error ()
  | AttrS.absent => Except.ok "📱"
  | AttrS.val t => Except.ok (iconFor t)

/-- The color tag chosen by the inner `try` of `update_device_list`
(lines 487-493): its own except catches everything. -/
def rowTag (d : RenderDevice) : String :=
  match d.is_on with
  | Attr.val true => "online"
  | Attr.val false => "offline"
  | Attr.absent => "unknown"
  | Attr.raisesOther => "unknown"

/-- The tail of the per-device `try` body of `update_device_list` once
the display name is known: status (total), icon (may raise), tag, row. -/
def buildRow2 (ip : String) (d : RenderDevice) (name : String) : Except Unit Row :=
  let status := get_status_display d
  match get_device_icon d with
  | Except.error e => Except.error e
  | Except.ok icon =>
    Except.ok ⟨ip, [icon ++ " " ++ name, status, "Toggle"], rowTag d⟩

/-- The per-device `try` body of `update_device_list` (lines 479-502):
`getattr(device, alias-name, default)` falls back to the default only
on `AttributeError`; any other exception escapes to the per-device
`except`. -/
def buildRow (ip : String) (d : RenderDevice) : Except Unit Row :=
  match d.aliasAttr with
  | AttrS.raisesOther => Except.error ()
  | AttrS.val s => buildRow2 ip d s
  | AttrS.absent => buildRow2 ip d ("Device at " ++ ip)

/-- The minimal row the per-device `except` inserts (lines 506-509). -/
def fallbackRow (ip : String) : Row :=
  ⟨ip, ["📱 Device " ++ ip, "⚪ Unknown", "Toggle"], "unknown"⟩

/-- The row a device entry's `try` attempts to insert: the full row, or
the fallback row when an attribute access raised (lines 479-509). -/
def renderDevice (ip : String) (d : RenderDevice) : Row :=
  match buildRow ip d with
  | Except.ok r => r
  | Except.error _ => fallbackRow ip

/-- The rows of a redraw whose inserts all succeed, one per device
entry, in mapping order. -/
def renderedRows (devices : List (String × RenderDevice)) : List Row :=
  devices.map (fun p => renderDevice p.1 p.2)

/-- Whether an item with this id exists in the widget: `detach` keeps
the item alive under its id, so detached rows count as well as
attached ones. -/
def treeHasIid (t : TreeState) (k : String) : Bool :=
  t.attached.any (fun r => r.iid == k) || t.detached.any (fun r => r.iid == k)

/-- `tree.insert(root, end, iid, ...)`: raises (TclError, item already
exists) when any item — attached or detached — carries the id;
otherwise the row is appended to the root's children. -/
def insertRow (t : TreeState) (r : Row) : Except Unit TreeState :=
  if treeHasIid t r.iid then Except.error ()
  else Except.ok { t with attached := t.attached ++ [r] }

/-- One iteration of the device loop of `update_device_list` (lines
478-509): build the row (attribute accesses may raise) and insert it;
any exception is caught at line 504, whose handler inserts the fallback
row under the same id at line 507 — an insert whose own failure is
uncaught.  When the first insert failed on a duplicate id, the fallback
insert necessarily fails on the same id and the redraw aborts. -/
def renderStep (t : TreeState) (ip : String) (d : RenderDevice) : Except Unit TreeState :=
  match buildRow ip d with
  | Except.ok r =>
    match insertRow t r with
    | Except.ok t2 => Except.ok t2
    | Except.error _ => insertRow t (fallbackRow ip)
  | Except.error _ => insertRow t (fallbackRow ip)

/-- The device loop: on an uncaught insert failure the exception
propagates out of `update_device_list`, leaving the rows inserted so
far; `Except.error` carries the widget state at the abort. -/
def renderLoop (t : TreeState) : List (String × RenderDevice) → Except TreeState TreeState
  | [] => Except.ok t
  | (ip, d) :: rest =>
    match renderStep t ip d with
    | Except.ok t2 => renderLoop t2 rest
    | Except.error _ => Except.error t

/-- The widget state a redraw leaves behind, completed or aborted. -/
def treeAfter : Except TreeState TreeState → TreeState
  | Except.ok t => t
  | Except.error t => t

/-- `update_device_list` (lines 471-512) over the treeview prestate:
the clearing loop iterates `get_children()` and so deletes only the
attached rows — rows detached by the search filter persist under their
ids — then one insert per device entry runs in mapping order, aborting
on an uncaught duplicate-id failure. -/
def update_device_list (devices : List (String × RenderDevice)) (t : TreeState) :
    Except TreeState TreeState :=
  renderLoop ⟨[], t.detached⟩ devices

/-- `_discover_devices` (lines 422-465): on a discovery-wide exception
the mapping is left alone; on success the mapping is assigned the
devices of this pass whose connectivity `update` succeeded, discarding
every old entry. -/
def _discover_devices (old : List (String × RenderDevice))
    (discovered : Except Unit (List (String × RenderDevice × Bool))) :
    List (String × RenderDevice) :=
  match discovered with
  | Except.error _ => old
  | Except.ok ds => (ds.filter (fun x => x.2.2)).map (fun x => (x.1, x.2.1))

/-- The shared mutable state the GUI object carries. -/
structure AppState where
  devices : List (String × RenderDevice)
  tree : TreeState
  searchVar : String
  statusVar : String
deriving DecidableEq

/-- `update_device_list` acting on the whole state: the widget ends in
the state the redraw leaves behind — completed or aborted — and
nothing else is touched (in particular the device mapping is never
assigned, on any path). -/
def update_device_list_st (st : AppState) : AppState :=
  { st with tree := treeAfter (update_device_list st.devices st.tree) }

/-- `on_search_changed` acting on the whole state: it reads the search
variable and moves rows between attached and detached. -/
def on_search_changed_st (st : AppState) : AppState :=
  { st with tree := on_search_changed st.searchVar st.tree }

/-- The worker event loop as `run_async`/`cleanup` observe it. -/
structure EventLoop where
  closed : Bool
  stopRequested : Bool
deriving DecidableEq

/-- What a `run_async` call does with the submitted coroutine. -/
inductive SubmitResult where
  | scheduled : SubmitResult
  | dropped : String → SubmitResult
deriving DecidableEq

/-- `run_async` (lines 410-415): when the loop handle is set and the
loop is not closed, the coroutine is handed to
`run_coroutine_threadsafe`; otherwise a diagnostic is printed and
nothing else happens.  Submission itself leaves the shared state
untouched in both branches. -/
def run_async (loop : Option EventLoop) (st : AppState) : AppState × SubmitResult :=
  match loop with
  | some l =>
    if l.closed then (st, SubmitResult.dropped "Event loop not available")
    else (st, SubmitResult.scheduled)
  | none => (st, SubmitResult.dropped "Event loop not available")

/-- `cleanup` (lines 417-420): when the handle is set and the loop is
not closed, request the loop to stop.  The loop is never closed. -/
def cleanup (loop : Option EventLoop) : Option EventLoop :=
  match loop with
  | some l => if l.closed then some l else some { l with stopRequested := true }
  | none => none

/-- Python dict assignment `devices[k] = v` on the address-keyed
mapping: replace in place, else append. -/
def dictInsert : List (String × RenderDevice) → String → RenderDevice →
    List (String × RenderDevice)
  | [], k, v => [(k, v)]
  | p :: rest, k, v => if p.1 = k then (k, v) :: rest else p :: dictInsert rest k v

/-- The status text of the `except` of `_manual_add_device`. -/
def failAddMsg (ip : String) : String :=
  "Failed to add device at " ++ ip

/-- How a manual add run goes: `discover_single` returns nothing,
raises, returns a device whose connectivity `update` raises, or
returns a device whose `update` succeeds (which is the moment
`devices[ip] = device` runs). -/
inductive AddOutcome where
  | notFound : AddOutcome
  | discoverRaise : AddOutcome
  | updateRaise : RenderDevice → AddOutcome
  | added : RenderDevice → AddOutcome
deriving DecidableEq

/-- `_manual_add_device` (lines 361-391): only the path that passed the
connectivity test writes `devices[ip] = device`; the success status then
reads the alias (default: the entered address), and if that read raises
the `except` reports failure — the entry, already stored, stays. -/
def _manual_add_device (ip : String) (outcome : AddOutcome)
    (devices : List (String × RenderDevice)) :
    List (String × RenderDevice) × String :=
  match outcome with
  | AddOutcome.added d =>
    let m := dictInsert devices ip d
    match d.aliasAttr with
    | AttrS.val s => (m, "Successfully added device: " ++ s)
    | AttrS.absent => (m, "Successfully added device: " ++ ip)
    | AttrS.raisesOther => (m, failAddMsg ip)
  | AddOutcome.updateRaise _ => (devices, failAddMsg ip)
  | AddOutcome.notFound => (devices, "No device found at " ++ ip)
  | AddOutcome.discoverRaise => (devices, failAddMsg ip)

/-- A first concrete row for the treeview scenarios. -/
def c3row1 : Row := ⟨"192.168.0.2", ["🔌 Lamp", "🟢 ON", "Toggle"], "online"⟩

/-- A second concrete row for the treeview scenarios. -/
def c3row2 : Row := ⟨"192.168.0.3", ["💡 Bulb", "⚫ OFF", "Toggle"], "offline"⟩

/-- A treeview showing both concrete rows, nothing detached. -/
def c3tree : TreeState := ⟨[c3row1, c3row2], []⟩

/-- A freshly started worker loop: not closed, not asked to stop. -/
def liveLoop : EventLoop := ⟨false, false⟩

/-- A concrete quiescent application state. -/
def st0 : AppState := ⟨[], ⟨[], []⟩, "", "Ready"⟩

/-- A device whose on-state read raises a non-AttributeError. -/
def c6dev : RenderDevice := ⟨AttrS.absent, Attr.raisesOther, AttrS.absent⟩

/-- A row hidden by the search filter, still alive under its id. -/
def c6detachedRow : Row := ⟨"10.0.0.1", ["📱 Old", "⚪ Unknown", "Toggle"], "unknown"⟩

/-- A detached row left over for an address dropped by rediscovery. -/
def c5oldRow : Row := ⟨"10.0.0.5", ["🔌 Old", "⚫ OFF", "Toggle"], "offline"⟩

/-! Helper lemmas shared by the claim theorems. -/

/-- The tally loop counts every outcome exactly once. -/
theorem countResults_sum : ∀ l : List Bool, (countResults l).1 + (countResults l).2 = l.length
  | [] => rfl
  | ok :: rest => by
    have ih := countResults_sum rest
    cases ok <;> simp [countResults] <;> omega

/-- A device with no reachability attribute contributes exactly one to
`online` (even when reading its on-flag raises, since the exception
handler only adds to `offline`). -/
theorem deviceCounts_noSignal_online :
    ∀ d : StatDevice, noSignal d → (deviceCounts d).1 = 1 := by decide

/-- Over a mapping with no reachability signal anywhere, the summed
online increments equal the mapping size. -/
theorem sumCounts_noSignal_online (ds : List StatDevice) (h : ∀ d ∈ ds, noSignal d) :
    (sumCounts ds).1 = ds.length := by
  induction ds with
  | nil => rfl
  | cons d rest ih =>
    have hd := deviceCounts_noSignal_online d (h d (by simp))
    have hr := ih (fun x hx => h x (by simp [hx]))
    simp [sumCounts, hd, hr]
    omega

/-- When no attribute read raises, the online increment is decided by
the effective availability. -/
theorem deviceCounts_noRaise_online :
    ∀ d : StatDevice, noRaise d → (deviceCounts d).1 = if effAvail d then 1 else 0 := by decide

/-- When no attribute read raises, the offline increment is the
complement of the online one. -/
theorem deviceCounts_noRaise_offline :
    ∀ d : StatDevice, noRaise d → (deviceCounts d).2.1 = if effAvail d then 0 else 1 := by decide

/-- Raise-free mappings: summed online increments count the effectively
available devices. -/
theorem sumCounts_noRaise_online (ds : List StatDevice) (h : ∀ d ∈ ds, noRaise d) :
    (sumCounts ds).1 = ds.countP (fun d => effAvail d) := by
  induction ds with
  | nil => rfl
  | cons d rest ih =>
    have hd := deviceCounts_noRaise_online d (h d (by simp))
    have hr := ih (fun x hx => h x (by simp [hx]))
    cases he : effAvail d <;>
      simp [sumCounts, hd, hr, List.countP_cons, he] <;> omega

/-- Raise-free mappings: summed offline increments count the
effectively unavailable devices. -/
theorem sumCounts_noRaise_offline (ds : List StatDevice) (h : ∀ d ∈ ds, noRaise d) :
    (sumCounts ds).2.1 = ds.countP (fun d => !effAvail d) := by
  induction ds with
  | nil => rfl
  | cons d rest ih =>
    have hd := deviceCounts_noRaise_offline d (h d (by simp))
    have hr := ih (fun x hx => h x (by simp [hx]))
    cases he : effAvail d <;>
      simp [sumCounts, hd, hr, List.countP_cons, he] <;> omega

/-- Raise-free mappings: every device lands in exactly one of the two
buckets. -/
theorem sumCounts_noRaise_total (ds : List StatDevice) (h : ∀ d ∈ ds, noRaise d) :
    (sumCounts ds).1 + (sumCounts ds).2.1 = ds.length := by
  induction ds with
  | nil => rfl
  | cons d rest ih =>
    have hd1 := deviceCounts_noRaise_online d (h d (by simp))
    have hd2 := deviceCounts_noRaise_offline d (h d (by simp))
    have hr := ih (fun x hx => h x (by simp [hx]))
    cases he : effAvail d <;> simp [sumCounts, hd1, hd2, he] <;> omega

/-- Both the normal and the fallback row carry the device address as
their item id. -/
theorem renderDevice_iid (ip : String) (d : RenderDevice) : (renderDevice ip d).iid = ip := by
  cases ha : d.aliasAttr <;> cases ht : d.device_type <;>
    simp [renderDevice, buildRow, buildRow2, get_device_icon, fallbackRow, ha, ht]

/-- A completed redraw emits rows whose item ids are exactly the
mapping keys, in order. -/
theorem renderedRows_iids (devices : List (String × RenderDevice)) :
    (renderedRows devices).map Row.iid = devices.map Prod.fst := by
  induction devices with
  | nil => rfl
  | cons p rest ih =>
    simp only [renderedRows, List.map_cons] at ih ⊢
    simp [renderDevice_iid, ih]

/-- A key outside a row list's ids makes the id scan come up false. -/
theorem any_iid_eq_false {l : List Row} {k : String} (h : k ∉ l.map Row.iid) :
    l.any (fun r => r.iid == k) = false := by
  simp only [List.any_eq_false]
  intro r hr hbeq
  apply h
  have he : r.iid = k := by simpa using hbeq
  exact List.mem_map.mpr ⟨r, hr, he⟩

/-- Both branches of a device iteration try ids equal to the device
address, so the whole iteration is one insert of the device's row. -/
theorem renderStep_eq (t : TreeState) (ip : String) (d : RenderDevice) :
    renderStep t ip d = insertRow t (renderDevice ip d) := by
  cases ha : d.aliasAttr <;> cases ht : d.device_type <;>
    by_cases hc : treeHasIid t ip = true <;>
      simp [renderStep, renderDevice, buildRow, buildRow2, get_device_icon, insertRow,
        fallbackRow, ha, ht, hc]

/-- When every device address is free of the widget's live ids and the
addresses are distinct, the device loop completes and appends exactly
one row per device. -/
theorem renderLoop_complete : ∀ (devices : List (String × RenderDevice)) (t : TreeState),
    (devices.map Prod.fst).Nodup →
    (∀ k ∈ devices.map Prod.fst, treeHasIid t k = false) →
    renderLoop t devices = Except.ok ⟨t.attached ++ renderedRows devices, t.detached⟩
  | [], t, _, _ => by simp [renderLoop, renderedRows]
  | (ip, d) :: rest, t, hn, hfree => by
    have hip : treeHasIid t ip = false := hfree ip (by simp)
    have hc : treeHasIid t (renderDevice ip d).iid = false := by
      rw [renderDevice_iid]; exact hip
    simp only [List.map_cons, List.nodup_cons] at hn
    obtain ⟨hipnotin, hn2⟩ := hn
    have hfree2 : ∀ k ∈ rest.map Prod.fst,
        treeHasIid ⟨t.attached ++ [renderDevice ip d], t.detached⟩ k = false := by
      intro k hk
      have hkf := hfree k (by simp [hk])
      have hkip : k ≠ ip := fun he => hipnotin (he ▸ hk)
      have hbeq : (ip == k) = false := by simpa using Ne.symm hkip
      simp only [treeHasIid, Bool.or_eq_false_iff] at hkf
      simp only [treeHasIid, List.any_append, List.any_cons, List.any_nil,
        Bool.or_eq_false_iff]
      refine ⟨⟨hkf.1, ?_⟩, hkf.2⟩
      simp [renderDevice_iid, hbeq]
    have hstep : renderLoop t ((ip, d) :: rest)
        = renderLoop ⟨t.attached ++ [renderDevice ip d], t.detached⟩ rest := by
      simp [renderLoop, renderStep_eq, insertRow, hc]
    rw [hstep, renderLoop_complete rest ⟨t.attached ++ [renderDevice ip d], t.detached⟩
      hn2 hfree2]
    simp [renderedRows]

/-- Whatever happens during a redraw — completion or abort part-way —
every attached row afterwards was attached before the loop started or
carries some device address as its id. -/
theorem renderLoop_attached_sub : ∀ (devices : List (String × RenderDevice)) (t : TreeState)
    (r : Row), r ∈ (treeAfter (renderLoop t devices)).attached →
    r ∈ t.attached ∨ r.iid ∈ devices.map Prod.fst
  | [], _, _, h => Or.inl h
  | (ip, d) :: rest, t, r, h => by
    by_cases hc : treeHasIid t (renderDevice ip d).iid = true
    · have habort : renderLoop t ((ip, d) :: rest) = Except.error t := by
        simp [renderLoop, renderStep_eq, insertRow, hc]
      rw [habort] at h
      exact Or.inl h
    · have hstep : renderLoop t ((ip, d) :: rest)
          = renderLoop ⟨t.attached ++ [renderDevice ip d], t.detached⟩ rest := by
        simp [renderLoop, renderStep_eq, insertRow, hc]
      rw [hstep] at h
      rcases renderLoop_attached_sub rest ⟨t.attached ++ [renderDevice ip d], t.detached⟩
          r h with hm | hm
      · rcases List.mem_append.mp hm with hm2 | hm2
        · exact Or.inl hm2
        · right
          have hrd : r = renderDevice ip d := by simpa using hm2
          simp [hrd, renderDevice_iid]
      · right
        simp only [List.map_cons, List.mem_cons]
        exact Or.inr hm

/-- Dict assignment stores the value at the assigned key. -/
theorem lookup_dictInsert_self (l : List (String × RenderDevice)) (k : String)
    (v : RenderDevice) : List.lookup k (dictInsert l k v) = some v := by
  induction l with
  | nil => simp [dictInsert, List.lookup]
  | cons p rest ih =>
    obtain ⟨pk, pv⟩ := p
    by_cases hp : pk = k
    · subst hp; simp [dictInsert, List.lookup]
    · have hbeq : (k == pk) = false := by
        simp only [beq_eq_false_iff_ne]
        exact fun he => hp he.symm
      simp [dictInsert, hp, List.lookup, hbeq, ih]

/-- Dict assignment leaves every other key alone. -/
theorem lookup_dictInsert_ne (l : List (String × RenderDevice)) (k : String)
    (v : RenderDevice) (k2 : String) (h : k2 ≠ k) :
    List.lookup k2 (dictInsert l k v) = List.lookup k2 l := by
  have hk : (k2 == k) = false := by simpa using h
  induction l with
  | nil => simp [dictInsert, List.lookup, hk]
  | cons p rest ih =>
    obtain ⟨pk, pv⟩ := p
    by_cases hp : pk = k
    · subst hp; simp [dictInsert, List.lookup, hk]
    · by_cases hq : k2 = pk
      · subst hq; simp [dictInsert, hp, List.lookup]
      · have hbeq : (k2 == pk) = false := by simpa using hq
        simp [dictInsert, hp, List.lookup, hbeq, ih]

/-- Whatever the alias read does afterwards, the added-device path has
already stored the entry. -/
theorem manualAdd_added_fst (ip : String) (d : RenderDevice)
    (devices : List (String × RenderDevice)) :
    (_manual_add_device ip (AddOutcome.added d) devices).1 = dictInsert devices ip d := by
  cases h : d.aliasAttr <;> simp [_manual_add_device, h]

/-! Claim theorems. -/

/-- C1 counterexample: a file whose read loop raises after delivering
the line `KASA_USERNAME=foo` is an unreadable file, yet the loader
returns the partially filled pair, not the empty-string pair. -/
theorem c1_counterexample :
    _load_credentials_from_env (some ⟨["KASA_USERNAME=foo"], true⟩) = ⟨"foo", ""⟩
    ∧ _load_credentials_from_env (some ⟨["KASA_USERNAME=foo"], true⟩) ≠ ⟨"", ""⟩ := by
  decide

/-- C1 (amended): blank lines and comment lines are ignored, each
remaining line splits on the first equals sign with surrounding quotes
stripped from the value, the two-key example parses as stated, and an
absent file — or one whose open fails — yields the empty pair; a read
failure mid-file keeps the key-value pairs parsed before the failure. -/
theorem c1_env_loader (cred : Credentials) (line : String)
    (h : pyStrip line = "" ∨ strStartsWith (pyStrip line) "#" = true) :
    _load_credentials_from_env none = ⟨"", ""⟩
    ∧ _load_credentials_from_env (some ⟨[], true⟩) = ⟨"", ""⟩
    ∧ _load_credentials_from_env
        (some ⟨["KASA_USERNAME=foo", "KASA_PASSWORD=\"bar baz\""], false⟩) = ⟨"foo", "bar baz"⟩
    ∧ _load_credentials_from_env (some ⟨["KASA_USERNAME=a=b"], false⟩) = ⟨"a=b", ""⟩
    ∧ _load_credentials_from_env (some ⟨["KASA_USERNAME=foo"], true⟩) = ⟨"foo", ""⟩
    ∧ processLine cred line = cred := by
  refine ⟨rfl, rfl, by decide, by decide, by decide, ?_⟩
  by_cases he : pyStrip line = ""
  · simp [processLine, he]
  · rcases h with h | h
    · exact absurd h he
    · simp [processLine, he, h]

/-- C1 witness: the amended theorem applied to a comment line. -/
theorem c1_env_loader_witness :
    processLine ⟨"u", "p"⟩ "   # comment" = ⟨"u", "p"⟩ :=
  (c1_env_loader ⟨"u", "p"⟩ "   # comment" (Or.inr (by decide))).2.2.2.2.2

/-- C2 counterexample: for three devices with one failed control call
the status text is the literal `2 devices turned off, 1 failed`, not
the claimed `2 turned off, 1 failed`. -/
theorem c2_counterexample :
    (_turn_all_devices false
        [("192.168.0.2", true), ("192.168.0.3", true), ("192.168.0.4", false)]).status
      ≠ "2 turned off, 1 failed"
    ∧ (_turn_all_devices false
        [("192.168.0.2", true), ("192.168.0.3", true), ("192.168.0.4", false)]).status
      = "2 devices turned off, 1 failed" := by
  decide

/-- C2 (amended): successes and failures tally to the device count, a
failure never removes a device from the refresh round, the refresh
round (after a one-second pause) covers every device and the redraw
always runs, the status text is a function of the aggregate counts
alone (never of which devices failed), and for three devices with one
failure it reads `2 devices turned off, 1 failed`. -/
theorem c2_batch (turn_on : Bool) (devices others : List (String × Bool))
    (hc : countResults (devices.map (fun p => p.2))
        = countResults (others.map (fun p => p.2))) :
    (_turn_all_devices turn_on devices).successful
        + (_turn_all_devices turn_on devices).failed = devices.length
    ∧ (_turn_all_devices turn_on devices).refreshed = devices.map (fun p => p.1)
    ∧ (_turn_all_devices turn_on devices).pauseSeconds = 1
    ∧ (_turn_all_devices turn_on devices).redrawn = true
    ∧ (_turn_all_devices turn_on devices).status = (_turn_all_devices turn_on others).status
    ∧ (_turn_all_devices false [("a", true), ("b", true), ("c", false)]).status
        = "2 devices turned off, 1 failed" := by
  refine ⟨?_, rfl, rfl, rfl, ?_, by decide⟩
  · have h := countResults_sum (devices.map (fun p => p.2))
    simpa [_turn_all_devices] using h
  · simp only [_turn_all_devices, hc]

/-- C2 witness: the amended theorem applied to two outcome lists with
equal tallies. -/
theorem c2_batch_witness :
    (_turn_all_devices true [("a", true), ("b", false)]).status
      = (_turn_all_devices true [("b", false), ("a", true)]).status :=
  (c2_batch true [("a", true), ("b", false)] [("b", false), ("a", true)]
    (by decide)).2.2.2.2.1

/-- C3: a query matching neither row detaches both; clearing the query
then iterates over the (now empty) set of attached children, so both
rows stay detached — clearing does not restore the rows, contradicting
the claimed (and clearly intended) behavior of the filter. -/
theorem c3_cleared_query_rows_stay_hidden :
    (on_search_changed "zzz" c3tree).attached = []
    ∧ on_search_changed "" (on_search_changed "zzz" c3tree)
        = ⟨[], [c3row1, c3row2]⟩
    ∧ c3tree.attached = [c3row1, c3row2] := by
  decide

/-- C4: the three-device example yields total 3, active 1 and, with no
reachability signal anywhere, online 3 and offline 0; in general a
mapping with no reachability signal reports online equal to total, and
a raise-free mapping splits online/offline by each device's effective
availability. -/
theorem c4_statistics (devs1 devs2 : List StatDevice)
    (h1 : ∀ d ∈ devs1, noSignal d) (h2 : ∀ d ∈ devs2, noRaise d) :
    update_statistics exampleABC = ⟨3, 3, 0, 1⟩
    ∧ (update_statistics devs1).online = (update_statistics devs1).total
    ∧ (update_statistics devs2).online = devs2.countP (fun d => effAvail d)
    ∧ (update_statistics devs2).offline = devs2.countP (fun d => !effAvail d) := by
  refine ⟨by decide, ?_, ?_, ?_⟩
  · have hon := sumCounts_noSignal_online devs1 h1
    simp only [update_statistics]
    rw [hon]
    split <;> rfl
  · have hone := sumCounts_noRaise_online devs2 h2
    have htot := sumCounts_noRaise_total devs2 h2
    simp only [update_statistics]
    by_cases hb : ((sumCounts devs2).1 = 0 ∧ (sumCounts devs2).2.1 = 0 ∧ 0 < devs2.length)
    · obtain ⟨hb1, hb2, hb3⟩ := hb
      rw [if_pos ⟨hb1, hb2, hb3⟩]
      omega
    · rw [if_neg hb]
      exact hone
  · have hoff := sumCounts_noRaise_offline devs2 h2
    simp only [update_statistics]
    exact hoff

/-- C4 witness: the statistics theorem applied to the three-device
example itself. -/
theorem c4_statistics_witness :
    (update_statistics exampleABC).online = (update_statistics exampleABC).total :=
  (c4_statistics exampleABC exampleABC (by decide) (by decide)).2.1

/-- C5: after a successful discovery pass the mapping is exactly the
discovered devices whose connectivity update succeeded — whatever it
held before — so an address present in the old mapping but absent from
the new pass appears neither in the mapping nor among the rendered
row ids. -/
theorem c5_discovery_replaces (old : List (String × RenderDevice))
    (ds : List (String × RenderDevice × Bool)) (ip : String) (t : TreeState)
    (h1 : ip ∈ old.map Prod.fst) (h2 : ip ∉ ds.map Prod.fst) :
    _discover_devices old (Except.ok ds)
        = (ds.filter (fun x => x.2.2)).map (fun x => (x.1, x.2.1))
    ∧ ip ∉ (_discover_devices old (Except.ok ds)).map Prod.fst
    ∧ ip ∉ (renderedRows (_discover_devices old (Except.ok ds))).map Row.iid
    ∧ ip ∉ (treeAfter (update_device_list (_discover_devices old (Except.ok ds))
          t)).attached.map Row.iid := by
  have hip : ip ∉ (_discover_devices old (Except.ok ds)).map Prod.fst := by
    intro hmem
    apply h2
    rw [show _discover_devices old (Except.ok ds)
          = (ds.filter (fun x => x.2.2)).map (fun x => (x.1, x.2.1)) from rfl,
        List.map_map] at hmem
    obtain ⟨x, hx, hxe⟩ := List.mem_map.mp hmem
    exact List.mem_map.mpr ⟨x, (List.mem_filter.mp hx).1, hxe⟩
  refine ⟨rfl, hip, ?_, ?_⟩
  · rw [renderedRows_iids]
    exact hip
  · intro hmem
    obtain ⟨r, hr, hre⟩ := List.mem_map.mp hmem
    rcases renderLoop_attached_sub (_discover_devices old (Except.ok ds))
        ⟨[], t.detached⟩ r hr with hm | hm
    · exact absurd hm (List.not_mem_nil r)
    · exact hip (hre ▸ hm)

/-- C5 witness: the replacement theorem at a one-entry old mapping, a
one-entry discovery result under a different address, and a widget
still holding the dropped address as a hidden (detached) row. -/
theorem c5_discovery_replaces_witness :
    "10.0.0.5" ∉ (treeAfter (update_device_list
        (_discover_devices
          [("10.0.0.5", ⟨AttrS.absent, Attr.val true, AttrS.absent⟩)]
          (Except.ok [("10.0.0.6", ⟨AttrS.absent, Attr.val false, AttrS.absent⟩, true)]))
        ⟨[], [c5oldRow]⟩)).attached.map Row.iid :=
  (c5_discovery_replaces
    [("10.0.0.5", ⟨AttrS.absent, Attr.val true, AttrS.absent⟩)]
    [("10.0.0.6", ⟨AttrS.absent, Attr.val false, AttrS.absent⟩, true)]
    "10.0.0.5" ⟨[], [c5oldRow]⟩ (by decide) (by decide)).2.2.2

/-- C6 counterexample: a device whose on-state read raises, at an
address a search-hidden (detached) row still occupies: the redraw's
insert raises, the per-device handler's fallback insert raises again
uncaught, and the redraw aborts with no row for the device — rendering
does raise, refuting the claim's unconditional no-raise/one-row
behavior. -/
theorem c6_counterexample :
    update_device_list [("10.0.0.1", c6dev)] ⟨[], [c6detachedRow]⟩
        = Except.error ⟨[], [c6detachedRow]⟩
    ∧ (treeAfter (update_device_list [("10.0.0.1", c6dev)] ⟨[], [c6detachedRow]⟩)).attached
        = []
    ∧ c6dev.is_on = Attr.raisesOther := by
  exact ⟨rfl, rfl, rfl⟩

/-- C6 (amended): a device whose on-state is absent or raises gets the
Unknown status label and the unknown color tag; and provided no device
address collides with a row hidden (detached) by the search filter —
in particular whenever nothing is detached — the redraw completes
without raising and emits one row per device entry, fallback rows
included, keyed by the device address. -/
theorem c6_unknown_state (devices : List (String × RenderDevice)) (ip : String)
    (d : RenderDevice) (t : TreeState)
    (h : d.is_on = Attr.absent ∨ d.is_on = Attr.raisesOther)
    (hn : (devices.map Prod.fst).Nodup)
    (hfree : ∀ k ∈ devices.map Prod.fst, k ∉ t.detached.map Row.iid) :
    get_status_display d = "⚪ Unknown"
    ∧ (renderDevice ip d).tag = "unknown"
    ∧ update_device_list devices t = Except.ok ⟨renderedRows devices, t.detached⟩
    ∧ (renderedRows devices).length = devices.length
    ∧ (renderedRows devices).map Row.iid = devices.map Prod.fst := by
  refine ⟨?_, ?_, ?_, by simp [renderedRows], renderedRows_iids devices⟩
  · rcases h with h | h <;> simp [get_status_display, h]
  · rcases h with h | h <;>
      cases ha : d.aliasAttr <;> cases ht : d.device_type <;>
        simp [renderDevice, buildRow, buildRow2, get_device_icon, rowTag, fallbackRow,
          h, ha, ht]
  · have hfree2 : ∀ k ∈ devices.map Prod.fst,
        treeHasIid ⟨[], t.detached⟩ k = false := by
      intro k hk
      simp only [treeHasIid, List.any_nil, Bool.false_or]
      exact any_iid_eq_false (hfree k hk)
    have hres := renderLoop_complete devices ⟨[], t.detached⟩ hn hfree2
    simpa [update_device_list] using hres

/-- C6 witness: the amended theorem at a one-device mapping with an
unreadable on-state and an empty detached pool. -/
theorem c6_unknown_state_witness :
    update_device_list [("10.0.0.1", c6dev)] ⟨[], []⟩
      = Except.ok ⟨renderedRows [("10.0.0.1", c6dev)], []⟩ :=
  (c6_unknown_state [("10.0.0.1", c6dev)] "10.0.0.1" c6dev ⟨[], []⟩
    (Or.inr rfl) (by decide) (by decide)).2.2.1

/-- C7: neither the list redraw nor the search filter touches the
device mapping or the records stored in it. -/
theorem c7_render_filter_frame (st : AppState) :
    (update_device_list_st st).devices = st.devices
    ∧ (on_search_changed_st st).devices = st.devices :=
  ⟨rfl, rfl⟩

/-- C9 counterexample: `cleanup` only requests the loop to stop and
never closes it, so a submission made after cleanup of a live loop is
still handed to the loop (scheduled), not dropped. -/
theorem c9_counterexample :
    cleanup (some liveLoop) = some ⟨false, true⟩
    ∧ run_async (cleanup (some liveLoop)) st0 = (st0, SubmitResult.scheduled)
    ∧ SubmitResult.scheduled ≠ SubmitResult.dropped "Event loop not available" := by
  decide

/-- C9 (amended): a submission made while the loop handle is null or
the loop is closed is silently dropped with only the diagnostic text,
raising nothing and leaving the shared state untouched; cleanup itself
does not produce such a state, since it stops but never closes the
loop. -/
theorem c9_dropped_submission (loop : Option EventLoop) (st : AppState)
    (h : loop = none ∨ ∃ l, loop = some l ∧ l.closed = true) :
    run_async loop st = (st, SubmitResult.dropped "Event loop not available") := by
  rcases h with h | ⟨l, hl, hc⟩
  · subst h; rfl
  · subst hl; simp [run_async, hc]

/-- C9 witness: the dropped-submission theorem at a null loop handle. -/
theorem c9_dropped_submission_witness :
    run_async none st0 = (st0, SubmitResult.dropped "Event loop not available") :=
  c9_dropped_submission none st0 (Or.inl rfl)

/-- C10: an add that passed the connectivity test stores exactly the
entered address, any other address reads as before, and the three
failing outcomes (no device, discovery raising, connectivity update
raising) leave the mapping untouched. -/
theorem c10_manual_add (ip k : String) (d : RenderDevice)
    (devices : List (String × RenderDevice)) (hk : k ≠ ip) :
    List.lookup ip (_manual_add_device ip (AddOutcome.added d) devices).1 = some d
    ∧ List.lookup k (_manual_add_device ip (AddOutcome.added d) devices).1
        = List.lookup k devices
    ∧ (_manual_add_device ip AddOutcome.notFound devices).1 = devices
    ∧ (_manual_add_device ip AddOutcome.discoverRaise devices).1 = devices
    ∧ (_manual_add_device ip (AddOutcome.updateRaise d) devices).1 = devices := by
  refine ⟨?_, ?_, rfl, rfl, rfl⟩
  · rw [manualAdd_added_fst]
    exact lookup_dictInsert_self devices ip d
  · rw [manualAdd_added_fst]
    exact lookup_dictInsert_ne devices ip d k hk

/-- C10 witness: the manual-add theorem at a two-entry mapping. -/
theorem c10_manual_add_witness :
    List.lookup "10.0.0.7"
        (_manual_add_device "10.0.0.7"
          (AddOutcome.added ⟨AttrS.absent, Attr.val false, AttrS.absent⟩)
          [("10.0.0.8", ⟨AttrS.absent, Attr.val true, AttrS.absent⟩)]).1
      = some ⟨AttrS.absent, Attr.val false, AttrS.absent⟩ :=
  (c10_manual_add "10.0.0.7" "10.0.0.8" ⟨AttrS.absent, Attr.val false, AttrS.absent⟩
    [("10.0.0.8", ⟨AttrS.absent, Attr.val true, AttrS.absent⟩)] (by decide)).1

/-- C8: a device whose availability reads true and whose on-flag read
then raises a non-AttributeError is tallied online and then offline by
the exception handler, so online plus offline exceeds total. -/
theorem c8_exception_double_count :
    update_statistics [⟨Attr.val true, Attr.absent, Attr.raisesOther⟩] = ⟨1, 1, 1, 0⟩
    ∧ (update_statistics [⟨Attr.val true, Attr.absent, Attr.raisesOther⟩]).online
        + (update_statistics [⟨Attr.val true, Attr.absent, Attr.raisesOther⟩]).offline
      > (update_statistics [⟨Attr.val true, Attr.absent, Attr.raisesOther⟩]).total := by
  decide

end Switch
